import Mathlib

/-!
Shallow embedding of the voice-presence core of the Auto-Level-up repository
(src/voice_module.py and the gateway operations of src/main.py it calls).

Conventions of the embedding:
* Python machine state becomes explicit record/state passing.
* Identities (user ids, channel ids) are `Nat`.
* The RNG draw of `random.randint` is modelled as a uniform draw from an
  arbitrary seed: `a + s % (b + 1 - a)`.
* Time of day (Python `datetime.time`) is modelled as minutes since local
  midnight, so `dtime(h, m)` becomes `60 * h + m`.
* Exceptions that the Python code swallows per call site are modelled by a
  `fault` oracle saying which individual gateway call raises.
-/

namespace AutoLevelUp

/-- The four presence states of `VoiceModule` (voice_module.py line 42 and the
string constants used throughout): `IDLE`, `CONNECTED`, `BUSY_WAIT`,
`MANUAL_SLEEP`. -/
inductive PState
  | idle
  | connected
  | busyWait
  | manualSleep
deriving DecidableEq

/-- Outcome of a single `vc.connect()` call inside `DiscordGateway.join_vc`
(main.py lines 114-129): success, an exception whose text contains
"Already connected", or any other exception. -/
inductive ConnectOutcome
  | ok
  | alreadyConnected
  | otherFail
deriving DecidableEq

/-- Observable gateway-side events of `DiscordGateway.join_vc`:
a `leave_vc` call, the `vc.connect()` call of a given attempt index, the
1-second settle sleep after a conflict (main.py line 125), and the 5-second
inter-attempt sleep (main.py line 129). -/
inductive GEv
  | leave
  | connect (attempt : Nat)
  | settleSleep
  | interSleep
deriving DecidableEq

/-- A Discord channel as seen through `client.get_channel`: its member list
(member ids) and whether it is a `discord.VoiceChannel`. -/
structure Channel where
  members : List Nat
  isVoice : Bool
deriving DecidableEq

/-- One entry of `client.voice_clients`: the channel it points at, its
`is_connected()` flag and its `is_playing()` flag. -/
structure VC where
  channelId : Nat
  connected : Bool
  playing : Bool
deriving DecidableEq

/-- The mutable voice-side state of `VoiceModule` touched by `leave_voice`:
the client's voice connections and `self.connected_since`. -/
structure VState where
  vcs : List VC
  connected_since : Option Nat
deriving DecidableEq

/-- Configuration read in `VoiceModule.__init__` (voice_module.py lines
34-39): target vc id, base stay seconds, jitter seconds, cooldown seconds,
busy retry seconds, and the configured timezone (as a UTC offset in
minutes). There are no night-window boundary fields: the source reads none. -/
structure Config where
  vc_id : Nat
  base_stay : Nat
  jitter : Nat
  cooldown : Nat
  busy_retry : Nat
  tzOffsetMin : Int
deriving DecidableEq

/-- `VoiceModule.active_voice_client` (voice_module.py lines 61-65): the
first connected entry of `client.voice_clients`, if any. -/
def active_voice_client : List VC → Option VC
  | [] => none
  | vc :: rest => if vc.connected then some vc else active_voice_client rest

/-- Whether the keep-alive filler is being transmitted: the active voice
client exists and `is_playing()` holds, exactly the condition the source
branches on in `start_audio`/`stop_audio`. -/
def is_transmitting (l : List VC) : Bool :=
  match active_voice_client l with
  | some vc => vc.playing
  | none => false

/-- `VoiceModule.start_audio` (voice_module.py lines 83-92): take the active
voice client; if none, return; if it is already playing, return; otherwise
`vc.play(SilentAudio())`, modelled as setting its playing flag. -/
def start_audio : List VC → List VC
  | [] => []
  | vc :: rest =>
    if vc.connected then
      if vc.playing then vc :: rest else { vc with playing := true } :: rest
    else vc :: start_audio rest

/-- `VoiceModule.stop_audio` (voice_module.py lines 94-98): if the active
voice client exists and is playing, `vc.stop()`; otherwise do nothing. -/
def stop_audio : List VC → List VC
  | [] => []
  | vc :: rest =>
    if vc.connected then
      if vc.playing then { vc with playing := false } :: rest else vc :: rest
    else vc :: stop_audio rest

/-- The `for vc in list(...): try: await vc.disconnect(force=True) except: pass`
loop of `VoiceModule.leave_voice` (voice_module.py lines 70-74). `fault i`
says whether the disconnect of the i-th voice client raises; a raising
disconnect is swallowed and leaves that client untouched, a succeeding one
tears the connection (and any playback) down. -/
def disconnect_all (fault : Nat → Bool) : Nat → List VC → List VC
  | _, [] => []
  | i, vc :: rest =>
    (if fault i then vc else { vc with connected := false, playing := false }) ::
      disconnect_all fault (i + 1) rest

/-- `VoiceModule.leave_voice` (voice_module.py lines 67-77): stop the
keep-alive audio, best-effort disconnect every voice client (exceptions
swallowed per client), then reset `connected_since` to `None`.
The `await asyncio.sleep(2)` has no state effect and is not modelled. -/
def leave_voice (fault : Nat → Bool) (s : VState) : VState :=
  { vcs := disconnect_all fault 0 (stop_audio s.vcs)
    connected_since := none }

/-- `SilentAudio.read` (voice_module.py lines 16-18): a constant frame of
3840 zero bytes, 20 ms of silence. -/
def SilentAudio.read : List Nat := List.replicate 3840 0

/-- `VoiceModule.on_voice_state_update` (voice_module.py lines 104-128):
the event handler, as a function of the member id of the update, the
member's new channel (`after.channel`), the automation's own id `me`, the
target `vcId`, and the current state. Returns the updated presence state and
voice state. -/
def on_voice_state_update (fault : Nat → Bool) (st : PState) (vs : VState)
    (me vcId memberId : Nat) (afterCh : Option Nat) : PState × VState :=
  if memberId = me then
    match afterCh with
    | some c =>
      if c ≠ vcId then
        if st ≠ PState.manualSleep then (PState.manualSleep, leave_voice fault vs)
        else (st, vs)
      else (st, vs)
    | none => if st = PState.manualSleep then (PState.idle, vs) else (st, vs)
  else
    match afterCh with
    | some c =>
      if c = vcId ∧ st = PState.connected then (PState.busyWait, leave_voice fault vs)
      else (st, vs)
    | none => (st, vs)

/-- The `for attempt in range(3)` body of `DiscordGateway.join_vc`
(main.py lines 114-129), over the list of remaining attempt indices.
On success the function returns `True` immediately; on an "Already connected"
conflict it calls `leave_vc` and sleeps 1 s; on any other exception it only
logs; in either failure case it sleeps 5 s when `attempt < 2` and the `for`
loop moves to the next attempt index. Returns the event trace and the
returned boolean. -/
def join_for (oc : Nat → ConnectOutcome) : List Nat → List GEv × Bool
  | [] => ([], false)
  | attempt :: rest =>
    match oc attempt with
    | ConnectOutcome.ok => ([GEv.connect attempt], true)
    | ConnectOutcome.alreadyConnected =>
      let tail := join_for oc rest
      (GEv.connect attempt :: GEv.leave :: GEv.settleSleep ::
        ((if attempt < 2 then [GEv.interSleep] else []) ++ tail.1), tail.2)
    | ConnectOutcome.otherFail =>
      let tail := join_for oc rest
      (GEv.connect attempt :: ((if attempt < 2 then [GEv.interSleep] else []) ++ tail.1),
        tail.2)

/-- `DiscordGateway.join_vc` (main.py lines 106-135): first an unconditional
`leave_vc` (line 110), then, if the id resolves to a voice channel, the
three-attempt connect loop; otherwise return `False`. -/
def join_vc (oc : Nat → ConnectOutcome) (resolvesToVoice : Bool) : List GEv × Bool :=
  if resolvesToVoice then
    let t := join_for oc [0, 1, 2]
    (GEv.leave :: t.1, t.2)
  else ([GEv.leave], false)

/-- Number of `vc.connect()` calls in a gateway event trace. -/
def countConnects (l : List GEv) : Nat :=
  (l.filter fun e => match e with | GEv.connect _ => true | _ => false).length

/-- Marker for which branch one iteration of the `while self.running` loop of
`VoiceModule.run` took. -/
inductive StepOut
  | sleptManual
  | targetMissing
  | busyWaitHold
  | alreadyActive
  | connectedNow
  | joinFailed
deriving DecidableEq

/-- Environment of one control-loop tick of `VoiceModule.run`: the result of
`get_target_vc()`, of `active_voice_client()` before the join, the outcomes
the gateway would give to connect calls, whether `join_vc`'s own channel
lookup resolves, and the `active_voice_client()` result sampled after the
join (voice_module.py line 168). -/
structure TickEnv where
  target : Option Channel
  activeVC : Bool
  joinOutcomes : Nat → ConnectOutcome
  joinResolves : Bool
  activeAfterJoin : Bool

/-- One iteration of the `while self.running` loop of `VoiceModule.run`
through the join decision (voice_module.py lines 141-177): the
`MANUAL_SLEEP` early sleep, the missing-target sleep, the `BUSY_WAIT`
member-count gate, the active-client sleep, then `gateway.join_vc` and the
post-join check that decides `CONNECTED` versus `BUSY_WAIT`. Returns the new
state, the gateway event trace of the tick, and the branch taken. The
post-connect stay phase (lines 184-201) is modelled separately by
`night_session` and `stay_time`. -/
def runStep (st : PState) (env : TickEnv) : PState × List GEv × StepOut :=
  if st = PState.manualSleep then (st, [], StepOut.sleptManual)
  else
    match env.target with
    | none => (st, [], StepOut.targetMissing)
    | some ch =>
      if st = PState.busyWait ∧ ch.members ≠ [] then (st, [], StepOut.busyWaitHold)
      else
        let st1 := if st = PState.busyWait then PState.idle else st
        if env.activeVC then (st1, [], StepOut.alreadyActive)
        else
          let j := join_vc env.joinOutcomes env.joinResolves
          if env.activeAfterJoin then (PState.connected, j.1, StepOut.connectedNow)
          else (PState.busyWait, j.1, StepOut.joinFailed)

/-- `DiscordGateway.get_vc_users` (main.py lines 150-159): resolve the id;
if it is a voice channel, return the number of members whose id differs from
`self.user_id`; otherwise fall through to `return -1`. -/
def get_vc_users (channels : Nat → Option Channel) (userId vcId : Nat) : Int :=
  match channels vcId with
  | some vc =>
    if vc.isVoice then ((vc.members.filter fun m => m != userId).length : Int) else -1
  | none => -1

/-- How a caller reads a `get_vc_users` result: a non-negative value is an
occupant count, the sentinel `-1` signals that the resource was unavailable. -/
inductive VcUsersResult
  | count (n : Nat)
  | resourceUnavailable
deriving DecidableEq

/-- Decode of the integer protocol of `get_vc_users`. -/
def decode_vc_users (r : Int) : VcUsersResult :=
  if r < 0 then VcUsersResult.resourceUnavailable else VcUsersResult.count r.toNat

/-- Python `datetime.time(h, m)` as minutes since local midnight. -/
def dtimeMin (h m : Nat) : Nat := 60 * h + m

set_option linter.unusedVariables false in
/-- `VoiceModule.in_night_window` (voice_module.py lines 53-55):
`dtime(2, 0) <= now < dtime(7, 0)` on the current local time. The `Config`
argument stands for `self`; note the comparison uses the hardcoded constants
2:00 and 7:00 and reads no field of the configuration. -/
def in_night_window (c : Config) (nowMin : Nat) : Bool :=
  decide (dtimeMin 2 0 ≤ nowMin ∧ nowMin < dtimeMin 7 0)

/-- Python `random.randint(a, b)` (both bounds inclusive), modelled as a
uniform draw determined by an arbitrary seed `s`. -/
def randint (a b s : Nat) : Nat := a + s % (b + 1 - a)

/-- The retention duration `stay_time = self.base_stay + random.randint(0,
self.jitter)` computed once at acquisition time in the non-window branch
(voice_module.py line 189). -/
def stay_time (c : Config) (s : Nat) : Nat := c.base_stay + randint 0 c.jitter s

/-- The night-window stay loop `while self.running and self.state ==
"CONNECTED" and self.in_night_window(): await asyncio.sleep(30)`
(voice_module.py lines 186-187), with no intervening event and `running`
held true, so that only ticks drive it. Local time advances 30 s per tick;
the window is active exactly before `endT`. Returns the time of the tick at
which the loop exits. -/
def night_stay (endT t : Nat) : Nat :=
  if t < endT then night_stay endT (t + 30) else t
termination_by endT - t
decreasing_by omega

/-- The whole night-branch connected phase (voice_module.py lines 184-201):
spin in `night_stay`, then `leave_voice` and `self.state = "IDLE"`. Returns
the release time, the final state and the final voice state. -/
def night_session (fault : Nat → Bool) (endT t : Nat) (vs : VState) :
    Nat × PState × VState :=
  (night_stay endT t, PState.idle, leave_voice fault vs)

/-- Concrete tick environment: target channel occupied by one non-self user
(id 99), no prior voice client, gateway lookup resolves, every connect
attempt fails transiently, no connection present after the join. -/
def envC1 : TickEnv :=
  { target := some { members := [99], isVoice := true }
    activeVC := false
    joinOutcomes := fun _ => ConnectOutcome.otherFail
    joinResolves := true
    activeAfterJoin := false }

/-- Concrete tick environment: target channel occupied by one non-self user
(id 99), no prior voice client, and the first connect attempt succeeds. -/
def envC1ok : TickEnv :=
  { target := some { members := [99], isVoice := true }
    activeVC := false
    joinOutcomes := fun _ => ConnectOutcome.ok
    joinResolves := true
    activeAfterJoin := true }

/-! Helper lemmas. -/

theorem night_stay_unfold (endT t : Nat) :
    night_stay endT t = if t < endT then night_stay endT (t + 30) else t := by
  rw [night_stay]

theorem night_stay_ge (endT : Nat) :
    ∀ fuel t, endT - t ≤ fuel → endT ≤ night_stay endT t := by
  intro fuel
  induction fuel with
  | zero =>
    intro t ht
    have h : ¬ t < endT := by omega
    rw [night_stay_unfold]
    simp [h]
    omega
  | succ n ih =>
    intro t ht
    rw [night_stay_unfold]
    by_cases h : t < endT
    · simp [h]
      exact ih (t + 30) (by omega)
    · simp [h]
      omega

theorem night_stay_lt (endT : Nat) :
    ∀ fuel t, endT - t ≤ fuel → t < endT + 30 → night_stay endT t < endT + 30 := by
  intro fuel
  induction fuel with
  | zero =>
    intro t ht hlt
    have h : ¬ t < endT := by omega
    rw [night_stay_unfold]
    simp [h]
    omega
  | succ n ih =>
    intro t ht hlt
    rw [night_stay_unfold]
    by_cases h : t < endT
    · simp [h]
      exact ih (t + 30) (by omega) (by omega)
    · simp [h]
      omega

theorem disconnect_all_true : ∀ (l : List VC) (i0 : Nat),
    disconnect_all (fun _ => true) i0 l = l := by
  intro l
  induction l with
  | nil => intro i0; rfl
  | cons w rest ih => intro i0; simp [disconnect_all, ih (i0 + 1)]

theorem disconnect_all_length (fault : Nat → Bool) : ∀ (l : List VC) (i0 : Nat),
    (disconnect_all fault i0 l).length = l.length := by
  intro l
  induction l with
  | nil => intro i0; rfl
  | cons w rest ih => intro i0; simp [disconnect_all, ih (i0 + 1)]

theorem stop_audio_length : ∀ l : List VC, (stop_audio l).length = l.length := by
  intro l
  induction l with
  | nil => rfl
  | cons w rest ih =>
    by_cases hc : w.connected
    · by_cases hp : w.playing <;> simp [stop_audio, hc, hp]
    · simp [stop_audio, hc, ih]

theorem disconnect_all_getElem (fault : Nat → Bool) :
    ∀ (l : List VC) (i0 i : Nat),
      (disconnect_all fault i0 l)[i]? =
        (l[i]?).map fun vc =>
          if fault (i0 + i) then vc else { vc with connected := false, playing := false } := by
  intro l
  induction l with
  | nil => intro i0 i; simp [disconnect_all]
  | cons w rest ih =>
    intro i0 i
    cases i with
    | zero => simp [disconnect_all]
    | succ n =>
      have e : i0 + 1 + n = i0 + (n + 1) := by omega
      simp [disconnect_all, ih (i0 + 1) n, e]

theorem disconnect_all_false_mem : ∀ (l : List VC) (i0 : Nat) (vc : VC),
    vc ∈ disconnect_all (fun _ => false) i0 l →
    vc.connected = false ∧ vc.playing = false := by
  intro l
  induction l with
  | nil => intro i0 vc h; simp [disconnect_all] at h
  | cons w rest ih =>
    intro i0 vc h
    simp [disconnect_all] at h
    rcases h with h | h
    · subst h; exact ⟨rfl, rfl⟩
    · exact ih (i0 + 1) vc h

theorem active_none_of_all_disconnected :
    ∀ l : List VC, (∀ vc ∈ l, vc.connected = false) → active_voice_client l = none := by
  intro l
  induction l with
  | nil => intro _; rfl
  | cons w rest ih =>
    intro h
    have hw := h w (by simp)
    simp [active_voice_client, hw]
    exact ih fun vc hv => h vc (by simp [hv])

theorem start_audio_noop : ∀ l : List VC, is_transmitting l = true → start_audio l = l := by
  intro l
  induction l with
  | nil => intro h; rfl
  | cons w rest ih =>
    intro h
    by_cases hc : w.connected
    · have hp : w.playing = true := by
        simpa [is_transmitting, active_voice_client, hc] using h
      simp [start_audio, hc, hp]
    · have h2 : is_transmitting rest = true := by
        simpa [is_transmitting, active_voice_client, hc] using h
      simp [start_audio, hc, ih h2]

theorem stop_audio_noop : ∀ l : List VC, is_transmitting l = false → stop_audio l = l := by
  intro l
  induction l with
  | nil => intro h; rfl
  | cons w rest ih =>
    intro h
    by_cases hc : w.connected
    · have hp : w.playing = false := by
        simpa [is_transmitting, active_voice_client, hc] using h
      simp [stop_audio, hc, hp]
    · have h2 : is_transmitting rest = false := by
        simpa [is_transmitting, active_voice_client, hc] using h
      simp [stop_audio, hc, ih h2]

/-! Claim theorems. -/

/-- C9: keep-alive start and stop are idempotent — `start_audio` is a no-op
when the active voice client is already playing, `stop_audio` is a no-op when
nothing is transmitting — and the filler payload is the constant all-zero
3840-byte (20 ms) frame of `SilentAudio.read`. -/
theorem claim_C9 :
    (∀ l : List VC, is_transmitting l = true → start_audio l = l) ∧
    (∀ l : List VC, is_transmitting l = false → stop_audio l = l) ∧
    SilentAudio.read = List.replicate 3840 0 ∧
    SilentAudio.read.length = 3840 ∧
    (∀ b ∈ SilentAudio.read, b = 0) := by
  refine ⟨start_audio_noop, stop_audio_noop, rfl, ?_, ?_⟩
  · rw [SilentAudio.read, List.length_replicate]
  · intro b hb
    rw [SilentAudio.read] at hb
    exact List.eq_of_mem_replicate hb

/-- Witness for C9 at a concrete voice-client list: starting while already
playing and stopping while not playing both leave the state unchanged. -/
theorem claim_C9_witness :
    start_audio [{ channelId := 5, connected := true, playing := true }] =
      [{ channelId := 5, connected := true, playing := true }] ∧
    stop_audio [{ channelId := 5, connected := true, playing := false }] =
      [{ channelId := 5, connected := true, playing := false }] :=
  ⟨claim_C9.1 _ rfl, claim_C9.2.1 _ rfl⟩

/-- C10: `leave_voice` never propagates an error — it is total over every
fault assignment of the per-client disconnects. It always resets
`connected_since` to `None` (even when every disconnect raises), it stops
the keep-alive audio before the disconnects (visible when all disconnects
fail), it visits every held voice connection regardless of which channel it
points at, and every client whose disconnect does not raise ends
disconnected and not playing. -/
theorem claim_C10 (fault : Nat → Bool) (s : VState) :
    (leave_voice fault s).connected_since = none ∧
    (leave_voice (fun _ => true) s).vcs = stop_audio s.vcs ∧
    (leave_voice fault s).vcs.length = s.vcs.length ∧
    (∀ (i : Nat) (vc : VC), ((leave_voice fault s).vcs)[i]? = some vc →
        fault i = false → vc.connected = false ∧ vc.playing = false) := by
  refine ⟨rfl, ?_, ?_, ?_⟩
  · simp [leave_voice, disconnect_all_true]
  · simp [leave_voice, disconnect_all_length, stop_audio_length]
  · intro i vc hvc hf
    rw [leave_voice] at hvc
    rw [disconnect_all_getElem] at hvc
    cases hw : (stop_audio s.vcs)[i]? with
    | none => rw [hw] at hvc; simp at hvc
    | some w =>
      rw [hw] at hvc
      simp [hf] at hvc
      rw [← hvc]
      exact ⟨rfl, rfl⟩

/-- Witness for C10: with one connected, playing voice client and a
succeeding disconnect, the release clears `connected_since` and the client
ends disconnected and silent. -/
theorem claim_C10_witness :
    (leave_voice (fun _ => false) ⟨[{ channelId := 1, connected := true, playing := true }], some 5⟩).connected_since = none ∧
    ({ channelId := 1, connected := false, playing := false } : VC).connected = false ∧
    ({ channelId := 1, connected := false, playing := false } : VC).playing = false := by
  refine ⟨(claim_C10 (fun _ => false) ⟨[{ channelId := 1, connected := true, playing := true }], some 5⟩).1, ?_, ?_⟩
  · exact ((claim_C10 (fun _ => false) ⟨[{ channelId := 1, connected := true, playing := true }], some 5⟩).2.2.2
      0 { channelId := 1, connected := false, playing := false } (by decide) rfl).1
  · exact ((claim_C10 (fun _ => false) ⟨[{ channelId := 1, connected := true, playing := true }], some 5⟩).2.2.2
      0 { channelId := 1, connected := false, playing := false } (by decide) rfl).2

/-- C2: from any of the states Idle, Connected and BusyWait, a voice-state
update reporting the automation's own account in a channel different from
the target drives the machine to `MANUAL_SLEEP` while running `leave_voice`
within the same transition, so that when the handler returns no session is
held (`connected_since = None`) and, with the disconnects succeeding,
every voice connection is torn down and the keep-alive is silent. -/
theorem claim_C2 (fault : Nat → Bool) (st : PState) (vs : VState) (me vcId d : Nat)
    (hst : st = PState.idle ∨ st = PState.connected ∨ st = PState.busyWait)
    (hd : d ≠ vcId) :
    on_voice_state_update fault st vs me vcId me (some d) =
      (PState.manualSleep, leave_voice fault vs) ∧
    (leave_voice fault vs).connected_since = none ∧
    (∀ vc ∈ (leave_voice (fun _ => false) vs).vcs,
        vc.connected = false ∧ vc.playing = false) ∧
    is_transmitting (leave_voice (fun _ => false) vs).vcs = false := by
  have hns : st ≠ PState.manualSleep := by rcases hst with h | h | h <;> simp [h]
  have hall : ∀ vc ∈ (leave_voice (fun _ => false) vs).vcs,
      vc.connected = false ∧ vc.playing = false := by
    intro vc hvc
    exact disconnect_all_false_mem _ 0 vc hvc
  refine ⟨?_, rfl, hall, ?_⟩
  · simp [on_voice_state_update, hd, hns]
  · have hnone : active_voice_client (leave_voice (fun _ => false) vs).vcs = none :=
      active_none_of_all_disconnected _ fun vc hvc => (hall vc hvc).1
    simp [is_transmitting, hnone]

/-- Witness for C2: while Connected with a held session to channel 10, the
self-moved-to-channel-11 event ends in `MANUAL_SLEEP` with the session
released. -/
theorem claim_C2_witness :
    on_voice_state_update (fun _ => false) PState.connected
        ⟨[{ channelId := 10, connected := true, playing := true }], some 3⟩ 1 10 1 (some 11) =
      (PState.manualSleep,
        leave_voice (fun _ => false)
          ⟨[{ channelId := 10, connected := true, playing := true }], some 3⟩) ∧
    (leave_voice (fun _ => false)
        ⟨[{ channelId := 10, connected := true, playing := true }], some 3⟩).connected_since = none := by
  have h := claim_C2 (fun _ => false) PState.connected
    ⟨[{ channelId := 10, connected := true, playing := true }], some 3⟩ 1 10 11
    (Or.inr (Or.inl rfl)) (by decide)
  exact ⟨h.1, h.2.1⟩

/-- C3 counterexample: when every connect call reports "Already connected",
the three-attempt loop of `join_vc` makes exactly the connect calls of
attempt slots 0, 1 and 2 — a slot is never retried (`connect 0` occurs once)
— and the budget is exhausted after three conflicts, returning `False`.
Under the claim, a conflict would not consume an attempt: the call after the
slot-0 conflict would be `connect 0` again and three conflicts alone could
never exhaust the budget. -/
theorem claim_C3_counterexample :
    join_vc (fun _ => ConnectOutcome.alreadyConnected) true =
      ([GEv.leave, GEv.connect 0, GEv.leave, GEv.settleSleep, GEv.interSleep,
        GEv.connect 1, GEv.leave, GEv.settleSleep, GEv.interSleep,
        GEv.connect 2, GEv.leave, GEv.settleSleep], false) ∧
    (join_vc (fun _ => ConnectOutcome.alreadyConnected) true).1.count (GEv.connect 0) = 1 ∧
    countConnects (join_vc (fun _ => ConnectOutcome.alreadyConnected) true).1 = 3 := by
  refine ⟨by decide, by decide, by decide⟩

/-- C3 as amended: on an "already connected" conflict at attempt slot 0 the
loop does force a full release (`leave_vc`) and wait the 1-second settle
delay, but the conflict consumes the attempt like any other failure: the
loop resumes at slots 1 and 2, not at slot 0 again. -/
theorem claim_C3 (oc : Nat → ConnectOutcome)
    (h : oc 0 = ConnectOutcome.alreadyConnected) :
    join_vc oc true =
      (GEv.leave :: GEv.connect 0 :: GEv.leave :: GEv.settleSleep :: GEv.interSleep ::
        (join_for oc [1, 2]).1,
       (join_for oc [1, 2]).2) := by
  simp [join_vc, join_for, h]

/-- Witness for C3 at the all-conflict outcome function. -/
theorem claim_C3_witness :
    join_vc (fun _ => ConnectOutcome.alreadyConnected) true =
      (GEv.leave :: GEv.connect 0 :: GEv.leave :: GEv.settleSleep :: GEv.interSleep ::
        (join_for (fun _ => ConnectOutcome.alreadyConnected) [1, 2]).1,
       (join_for (fun _ => ConnectOutcome.alreadyConnected) [1, 2]).2) :=
  claim_C3 (fun _ => ConnectOutcome.alreadyConnected) rfl

/-- C4: the acquisition operation `join_vc` always performs its forced
release before any connect attempt (the trace starts with `leave`); a first
successful connect returns success immediately with a single join call; and
when the target resolves but every one of the three attempts fails with a
transient fault, it makes exactly 3 connect calls, returns failure, and the
control-loop tick that ran it (no connection present afterwards) ends in
`BUSY_WAIT`. -/
theorem claim_C4 (oc : Nat → ConnectOutcome) (env : TickEnv) (ch : Channel)
    (hT : env.target = some ch) (hA : env.activeVC = false)
    (hJ : env.joinOutcomes = oc) (hR : env.joinResolves = true)
    (hAfter : env.activeAfterJoin = false)
    (hFail : ∀ k, k < 3 → oc k = ConnectOutcome.otherFail) :
    (∀ (oc2 : Nat → ConnectOutcome) (r : Bool),
        (join_vc oc2 r).1.head? = some GEv.leave) ∧
    (∀ oc3 : Nat → ConnectOutcome, oc3 0 = ConnectOutcome.ok →
        join_vc oc3 true = ([GEv.leave, GEv.connect 0], true)) ∧
    (join_vc oc true).2 = false ∧
    countConnects (join_vc oc true).1 = 3 ∧
    (runStep PState.idle env).1 = PState.busyWait ∧
    (runStep PState.idle env).2.1 = (join_vc oc true).1 := by
  have h0 := hFail 0 (by omega)
  have h1 := hFail 1 (by omega)
  have h2 := hFail 2 (by omega)
  have hjoin : join_vc oc true =
      ([GEv.leave, GEv.connect 0, GEv.interSleep, GEv.connect 1, GEv.interSleep,
        GEv.connect 2], false) := by
    simp [join_vc, join_for, h0, h1, h2]
  refine ⟨?_, ?_, ?_, ?_, ?_, ?_⟩
  · intro oc2 r
    cases r <;> simp [join_vc]
  · intro oc3 hok
    simp [join_vc, join_for, hok]
  · rw [hjoin]
  · rw [hjoin]; decide
  · simp [runStep, hT, hA, hAfter]
  · simp [runStep, hT, hA, hAfter, hJ, hR]

/-- Witness for C4 at a concrete environment whose three attempts all fail
transiently. -/
theorem claim_C4_witness :
    (join_vc (fun _ => ConnectOutcome.otherFail) true).2 = false ∧
    countConnects (join_vc (fun _ => ConnectOutcome.otherFail) true).1 = 3 ∧
    (runStep PState.idle
      { target := some { members := [], isVoice := true }
        activeVC := false
        joinOutcomes := fun _ => ConnectOutcome.otherFail
        joinResolves := true
        activeAfterJoin := false }).1 = PState.busyWait := by
  have h := claim_C4 (fun _ => ConnectOutcome.otherFail)
    { target := some { members := [], isVoice := true }
      activeVC := false
      joinOutcomes := fun _ => ConnectOutcome.otherFail
      joinResolves := true
      activeAfterJoin := false }
    { members := [], isVoice := true } rfl rfl rfl rfl rfl (fun k hk => rfl)
  exact ⟨h.2.2.1, h.2.2.2.1, h.2.2.2.2.1⟩

/-- C1 counterexample: a tick taken in `IDLE` with the target channel
occupied by a non-self user (id 99, one occupant excluding self, so the
count is non-zero) still calls the gateway join operation — with transient
failures the trace shows three connect calls before the machine reaches
`BUSY_WAIT`, and with a succeeding join the machine even ends `CONNECTED`.
Under the claim, no join call may happen on such a tick. -/
theorem claim_C1_counterexample :
    ({ members := [99], isVoice := true } : Channel).members ≠ [] ∧
    runStep PState.idle envC1 =
      (PState.busyWait,
       [GEv.leave, GEv.connect 0, GEv.interSleep, GEv.connect 1, GEv.interSleep,
        GEv.connect 2],
       StepOut.joinFailed) ∧
    countConnects (runStep PState.idle envC1).2.1 = 3 ∧
    runStep PState.idle envC1ok =
      (PState.connected, [GEv.leave, GEv.connect 0], StepOut.connectedNow) := by
  refine ⟨by decide, by decide, by decide, by decide⟩

/-- C1 as amended: the occupancy gate lives only in the `BUSY_WAIT` branch of
the loop. A tick in `BUSY_WAIT` with a non-empty member list stays in
`BUSY_WAIT` without calling the gateway join; a tick in `BUSY_WAIT` with an
empty member list falls through and joins within the same tick; and a tick
in `IDLE` (no active client) runs the gateway join unconditionally — its
trace is exactly the `join_vc` trace, which is never empty — regardless of
the target's occupancy. -/
theorem claim_C1 (env : TickEnv) (ch : Channel) (hT : env.target = some ch) :
    (ch.members ≠ [] →
        runStep PState.busyWait env = (PState.busyWait, [], StepOut.busyWaitHold)) ∧
    (env.activeVC = false →
        (runStep PState.idle env).2.1 = (join_vc env.joinOutcomes env.joinResolves).1 ∧
        (runStep PState.idle env).2.1 ≠ []) ∧
    (ch.members = [] → env.activeVC = false →
        (runStep PState.busyWait env).2.1 = (join_vc env.joinOutcomes env.joinResolves).1) := by
  have hne : ∀ oc r, (join_vc oc r).1 ≠ [] := by
    intro oc r
    cases r <;> simp [join_vc]
  refine ⟨?_, ?_, ?_⟩
  · intro hm
    simp [runStep, hT, hm]
  · intro hA
    by_cases hAfter : env.activeAfterJoin <;>
      simp [runStep, hT, hA, hAfter, hne]
  · intro hm hA
    by_cases hAfter : env.activeAfterJoin <;>
      simp [runStep, hT, hm, hA, hAfter]

/-- Witness for C1 as amended, at the concrete occupied environment: the
`BUSY_WAIT` tick holds without joining, while the `IDLE` tick's trace is the
(non-empty) gateway join trace. -/
theorem claim_C1_witness :
    runStep PState.busyWait envC1 = (PState.busyWait, [], StepOut.busyWaitHold) ∧
    (runStep PState.idle envC1).2.1 =
      (join_vc envC1.joinOutcomes envC1.joinResolves).1 ∧
    (runStep PState.idle envC1).2.1 ≠ [] := by
  have h := claim_C1 envC1 { members := [99], isVoice := true } rfl
  exact ⟨h.1 (by decide), (h.2.1 rfl).1, (h.2.1 rfl).2⟩

/-- C5: for a session that is connected at time `t` inside the night window
(the window ends at `endT`), the tick-driven stay loop never exits before
the window's end — the release time is at least `endT`, so no tick taken
while the window is active releases the session — and the release happens
strictly before `endT + 30`, i.e. within one 30-second tick period of the
window's end, after which the state is `IDLE` and no session is held. -/
theorem claim_C5 (fault : Nat → Bool) (vs : VState) (endT t : Nat) (h : t < endT) :
    endT ≤ (night_session fault endT t vs).1 ∧
    (night_session fault endT t vs).1 < endT + 30 ∧
    (night_session fault endT t vs).2.1 = PState.idle ∧
    (night_session fault endT t vs).2.2.connected_since = none := by
  refine ⟨?_, ?_, rfl, rfl⟩
  · exact night_stay_ge endT (endT - t) t (le_refl _)
  · exact night_stay_lt endT (endT - t) t (le_refl _) (by omega)

/-- Witness for C5: connected at t = 0 with the window ending at t = 40, the
session is held past the window and released before t = 70, ending in
`IDLE` with `connected_since = None`. -/
theorem claim_C5_witness :
    40 ≤ (night_session (fun _ => false) 40 0 ⟨[], none⟩).1 ∧
    (night_session (fun _ => false) 40 0 ⟨[], none⟩).1 < 40 + 30 ∧
    (night_session (fun _ => false) 40 0 ⟨[], none⟩).2.1 = PState.idle ∧
    (night_session (fun _ => false) 40 0 ⟨[], none⟩).2.2.connected_since = none :=
  claim_C5 (fun _ => false) ⟨[], none⟩ 40 0 (by omega)

/-- C6: the retention duration of a non-window acquisition, `base_stay`
plus a `randint(0, jitter)` draw, always lies in the closed interval
`[base_stay, base_stay + jitter]`, for every configuration and every seed. -/
theorem claim_C6 (c : Config) (s : Nat) :
    c.base_stay ≤ stay_time c s ∧ stay_time c s ≤ c.base_stay + c.jitter := by
  unfold stay_time randint
  have h : s % (c.jitter + 1 - 0) < c.jitter + 1 - 0 :=
    Nat.mod_lt _ (by omega)
  generalize s % (c.jitter + 1 - 0) = r at h ⊢
  omega

/-- C7: `get_vc_users` reports, through its integer protocol, the number of
occupants of the channel excluding the automation's own user id whenever the
resource id resolves to a voice channel, and the resource-unavailable signal
(the sentinel `-1`) whenever the id does not resolve or resolves to a
non-voice channel. -/
theorem claim_C7 (channels : Nat → Option Channel) (userId vcId : Nat) :
    (∀ ch : Channel, channels vcId = some ch → ch.isVoice = true →
        decode_vc_users (get_vc_users channels userId vcId) =
          VcUsersResult.count ((ch.members.filter fun m => m != userId).length)) ∧
    (channels vcId = none →
        decode_vc_users (get_vc_users channels userId vcId) =
          VcUsersResult.resourceUnavailable) ∧
    (∀ ch : Channel, channels vcId = some ch → ch.isVoice = false →
        decode_vc_users (get_vc_users channels userId vcId) =
          VcUsersResult.resourceUnavailable) := by
  refine ⟨?_, ?_, ?_⟩
  · intro ch hch hv
    have hnonneg :
        ¬ (((ch.members.filter fun m => m != userId).length : Int) < 0) := by
      omega
    simp [get_vc_users, hch, hv, decode_vc_users, hnonneg]
  · intro hch
    simp [get_vc_users, hch, decode_vc_users]
  · intro ch hch hv
    simp [get_vc_users, hch, hv, decode_vc_users]

/-- Witness for C7: a channel with members 1, 2, 3 queried by user 2 yields
the count 2; a non-resolving id yields the resource-unavailable signal. -/
theorem claim_C7_witness :
    decode_vc_users
        (get_vc_users
          (fun i => if i = 5 then some { members := [1, 2, 3], isVoice := true } else none)
          2 5) = VcUsersResult.count 2 ∧
    decode_vc_users
        (get_vc_users
          (fun i => if i = 5 then some { members := [1, 2, 3], isVoice := true } else none)
          2 7) = VcUsersResult.resourceUnavailable := by
  constructor
  · exact (claim_C7
      (fun i => if i = 5 then some { members := [1, 2, 3], isVoice := true } else none)
      2 5).1 { members := [1, 2, 3], isVoice := true } rfl rfl
  · exact (claim_C7
      (fun i => if i = 5 then some { members := [1, 2, 3], isVoice := true } else none)
      2 7).2.1 rfl

/-- C8 counterexample: the night-window boundaries of `in_night_window` do
not come from the configuration. There is no pair of boundary functions of
the configuration that both describes the predicate and ever varies with the
configuration: any such description is forced to the hardcoded constants
02:00 (minute 120) and 07:00 (minute 420) for every configuration. -/
theorem claim_C8_counterexample :
    ¬ ∃ f g : Config → Nat,
        (∀ (c : Config) (m : Nat),
            in_night_window c m = decide (f c ≤ m ∧ m < g c)) ∧
        (∃ c₁ c₂ : Config, f c₁ ≠ f c₂ ∨ g c₁ ≠ g c₂) := by
  rintro ⟨f, g, hiff, c₁, c₂, hne⟩
  have key : ∀ c : Config, f c = 120 ∧ g c = 420 := by
    intro c
    have hm : ∀ m : Nat, (f c ≤ m ∧ m < g c) ↔ (120 ≤ m ∧ m < 420) := by
      intro m
      have h := hiff c m
      have h2 : decide (120 ≤ m ∧ m < 420) = decide (f c ≤ m ∧ m < g c) := by
        simpa [in_night_window, dtimeMin] using h
      exact (decide_eq_decide.mp h2).symm
    have h120 := (hm 120).mpr ⟨le_refl 120, by omega⟩
    have hfg : f c < g c := by omega
    have hself := (hm (f c)).mp ⟨le_refl (f c), hfg⟩
    have h419 := (hm 419).mpr ⟨by omega, by omega⟩
    have h420 : ¬ (f c ≤ 420 ∧ 420 < g c) := by
      intro hcontra
      have := (hm 420).mp hcontra
      omega
    constructor
    · omega
    · omega
  have k1 := key c₁
  have k2 := key c₂
  rcases hne with h | h <;> omega

/-- C8 as amended: `in_night_window` is a pure, deterministic predicate of
the local time of day alone — it does not vary with the configuration —
and it is true exactly on the half-open hardcoded window
02:00 ≤ now < 07:00 (minutes 120 to 420), which does not cross midnight;
only the timezone that localizes `now` is configured. -/
theorem claim_C8 (c c' : Config) (m : Nat) :
    in_night_window c m = in_night_window c' m ∧
    (in_night_window c m = true ↔ (120 ≤ m ∧ m < 420)) ∧
    in_night_window c 120 = true ∧
    in_night_window c 419 = true ∧
    in_night_window c 119 = false ∧
    in_night_window c 420 = false := by
  refine ⟨rfl, ?_, rfl, rfl, rfl, rfl⟩
  simp [in_night_window, dtimeMin]

end AutoLevelUp
